import Mathlib

/-!
Verification of the sliding-window regression outlier detector `GBRegOD`
(`tods/detection_algorithm/core/GBRegOD.py`).

The detector is embedded shallowly: a time series is a list of rows of
rationals, the attribute dictionary of a detector instance is an explicit
record whose optional fields model Python attributes that exist only after
assignment, and each Python method becomes a function from the attribute
state (and its input) to its result together with the attribute state after
the call.  Errors raised by the Python runtime and the scientific libraries
are an explicit error type.

The shared base class `CollectiveBase.py` and the windowing helper
`utility.get_sub_matrices` are not part of the sources; they are modelled
from the specification and marked as such in their doc comments.

Rational arithmetic from the standard library is not kernel-reducible
(`Rat.add` and friends are irreducible), so the embedding computes
subtraction, absolute difference and the quantile position with directly
reducible definitions (`ratSub`, `absDiff`, `kOf`); bridging lemmas prove
each of them equal to the textbook operation.
-/

namespace GBRegODSpec

/-- Errors raised to the caller: ValueError-class failures (also covering the
ConfigurationError class of the spec taxonomy), IndexError, the spec's
InvalidInputError for under-length windowing input, and sklearn's
NotFittedError. -/
inductive PyErr where
  | valueError
  | indexError
  | invalidInput
  | notFittedError
deriving DecidableEq, Repr

/-- State of one `GradientBoostingRegressor` instance: whether `fit` has been
called on it, and the learned prediction function on flattened windows
(abstract: the concrete ensemble is a deterministic black box). -/
structure GBState where
  fitted : Bool
  f : List ℚ → ℚ

/-- Attribute state of a `GBRegOD` detector instance.  `Option` fields model
Python attributes that exist only once some method has assigned them. -/
structure DetectorState where
  window_size : ℕ
  step_size : ℕ
  contamination : ℚ
  gbr_ : Option GBState := none
  decision_scores_ : Option (List ℚ) := none
  threshold_ : Option ℚ := none
  labels_ : Option (List ℕ) := none
  left_inds_ : Option (List ℕ) := none
  right_inds_ : Option (List ℕ) := none
  valid_len_ : Option ℕ := none

/-- Subtraction of rationals by the same normalization formula as the library
subtraction, stated reducibly so that concrete runs evaluate in the kernel.
`ratSub_eq` proves it equal to the library subtraction. -/
def ratSub (a b : ℚ) : ℚ :=
  Rat.normalize (a.num * b.den - b.num * a.den) (a.den * b.den)
    (Nat.mul_ne_zero a.den_nz b.den_nz)

theorem ratSub_eq (a b : ℚ) : ratSub a b = a - b :=
  (Rat.sub_def a b).symm

/-- `np.absolute(a - b)`, the absolute residual between two values, written
with an order split so that concrete runs evaluate in the kernel;
`absDiff_eq` identifies it with `|a - b|`. -/
def absDiff (a b : ℚ) : ℚ :=
  if b ≤ a then ratSub a b else ratSub b a

theorem absDiff_eq (a b : ℚ) : absDiff a b = |a - b| := by
  unfold absDiff
  split
  · rw [ratSub_eq, abs_of_nonneg (sub_nonneg.2 (by assumption))]
  · rw [ratSub_eq, abs_sub_comm, abs_of_nonneg]
    have h := lt_of_not_le (by assumption)
    exact sub_nonneg.2 h.le

/-- One half, written in kernel-reducible form; used by the constructor guard
on `contamination`.  `mkRat_one_two` identifies it with `1 / 2`. -/
def oneHalf : ℚ := mkRat 1 2

theorem mkRat_one_two : oneHalf = 1 / 2 := by
  unfold oneHalf
  rw [Rat.mkRat_eq_divInt, Rat.divInt_eq_div]
  norm_num

/-- sklearn's `check_array` with default options, as called by `fit`: the
input must be a non-empty two-dimensional numeric array, i.e. at least one
row, all rows of one common positive length; otherwise ValueError. -/
def check_array (X : List (List ℚ)) : Except PyErr (List (List ℚ)) :=
  if X.length = 0 then .error .valueError
  else if X.any (fun r => r.length ≠ (X.headD []).length) then .error .valueError
  else if (X.headD []).length = 0 then .error .valueError
  else .ok X

/-- Modelled from the spec: `get_sub_matrices` of
`tods/detection_algorithm/core/utility.py` is not under the sources.  Per the
Windowing Engine contract, a sequence of length N with window W, stride S and
`flatten=true` yields `floor((N-W)/S)+1` windows, window `i` being the
flattened rows `[i*S, i*S+W)`, with `left_inds[i] = i*S` and
`right_inds[i] = i*S+W`, and the call fails with InvalidInputError when
`N < W`. -/
def get_sub_matrices (X : List (List ℚ)) (W S : ℕ) :
    Except PyErr (List (List ℚ) × List ℕ × List ℕ) :=
  if X.length < W then .error .invalidInput
  else
    let cnt := (X.length - W) / S + 1
    .ok ((List.range cnt).map (fun i => ((X.drop (i * S)).take W).flatten),
         (List.range cnt).map (fun i => i * S),
         (List.range cnt).map (fun i => i * S + W))

/-- One iteration of the target-construction loop
`y_buf[i] = X[i*step_size + window_size]`: an out-of-range index raises
IndexError, and the numpy broadcast of row `X[idx]` (shape `(F,)`) into the
scalar slot `y_buf[i]` (shape `(1,)`) succeeds only when `F = 1`, raising
ValueError otherwise. -/
def targetAt (X : List (List ℚ)) (S W i : ℕ) : Except PyErr ℚ :=
  match X.get? (i * S + W) with
  | none => .error .indexError
  | some row => if row.length = 1 then .ok (row.headD 0) else .error .valueError

/-- The target loop over a list of window indices, failing at the first
faulting index, in index order like the Python `for` loop. -/
def buildTargetsGo (X : List (List ℚ)) (S W : ℕ) : List ℕ → Except PyErr (List ℚ)
  | [] => .ok []
  | i :: rest =>
    match targetAt X S W i with
    | .error e => .error e
    | .ok q =>
      match buildTargetsGo X S W rest with
      | .error e => .error e
      | .ok qs => .ok (q :: qs)

/-- `for i in range(n): y_buf[i] = X[i*step_size + window_size]`. -/
def buildTargets (X : List (List ℚ)) (S W n : ℕ) : Except PyErr (List ℚ) :=
  buildTargetsGo X S W (List.range n)

/-- `GradientBoostingRegressor.predict` on a batch: sklearn first checks that
the estimator is fitted (NotFittedError otherwise, whatever the batch), then
evaluates the learned function on every row. -/
def gbPredict (g : GBState) (rows : List (List ℚ)) : Except PyErr (List ℚ) :=
  if g.fitted then .ok (rows.map g.f) else .error .notFittedError

/-- Position of the `(1-contamination)` quantile from the top: with `n`
training scores, `kOf n c = floor(n * c)` scores lie strictly above the
quantile position of the ascending full sort.  Written with integer division
for kernel reducibility; `kOf_eq` identifies it with the floor. -/
def kOf (n : ℕ) (c : ℚ) : ℕ :=
  (((n : ℤ) * c.num) / (c.den : ℤ)).toNat

theorem kOf_eq (n : ℕ) (c : ℚ) : kOf n c = (⌊(n : ℚ) * c⌋).toNat := by
  have h : (n : ℚ) * c = (((n : ℤ) * c.num : ℤ) : ℚ) / ((c.den : ℕ) : ℚ) := by
    conv_lhs => rw [← Rat.num_div_den c]
    push_cast
    ring
  rw [kOf, h, Rat.floor_intCast_div_natCast]

/-- Modelled from the spec: `_process_decision_scores` of `CollectiveBase.py`
is not under the sources.  Per the Thresholding/Labeling contract,
`threshold_` is the `(1-contamination)` quantile of `decision_scores_`
computed via a full sort — the value at position `n - 1 - floor(n*c)` of the
ascending sort, i.e. the `(floor(n*c)+1)`-th largest score — and
`labels_[i] = 1` iff `decision_scores_[i] > threshold_` (strict). -/
def threshold_of (scores : List ℚ) (c : ℚ) : ℚ :=
  (scores.insertionSort (· ≤ ·)).getD (scores.length - 1 - kOf scores.length c) 0

/-- Modelled from the spec: the labeling half of `_process_decision_scores`;
stores `threshold_` and the strict-comparison binary labels on the detector
instance. -/
def process_decision_scores (s : DetectorState) : DetectorState :=
  let ds := s.decision_scores_.getD []
  let t := threshold_of ds s.contamination
  { s with threshold_ := some t,
           labels_ := some (ds.map (fun x => if t < x then 1 else 0)) }

/-- Modelled from the spec: `GBRegOD.__init__` delegates to
`CollectiveBaseDetector.__init__` (not under the sources), which receives
only `contamination` and raises a ValueError-class ConfigurationError when it
is not in `(0, 0.5)`; `window_size` and `step_size` are then stored on the
instance without validation, as the visible `__init__` body shows. -/
def init (window_size step_size : ℕ) (contamination : ℚ) :
    Except PyErr DetectorState :=
  if 0 < contamination ∧ contamination < oneHalf then
    .ok { window_size := window_size, step_size := step_size,
          contamination := contamination }
  else .error .valueError

/-- `GBRegOD.fit`.  `train` abstracts the deterministic sklearn
gradient-boosting fit, mapping the training matrix and target vector to the
learned prediction function.  The result is the attribute state after the
call paired with the error raised, if any; on an error the state holds
exactly the attributes assigned before the raise.  sklearn's `fit` raises
ValueError on an empty training matrix. -/
def fit (train : List (List ℚ) → List ℚ → List ℚ → ℚ)
    (s : DetectorState) (X0 : List (List ℚ)) : DetectorState × Option PyErr :=
  match check_array X0 with
  | .error e => (s, some e)
  | .ok X =>
    match get_sub_matrices X s.window_size s.step_size with
    | .error e => (s, some e)
    | .ok (sub, li, ri) =>
      let subT := sub.dropLast
      let s2 : DetectorState :=
        { s with left_inds_ := some li.dropLast,
                 right_inds_ := some ri.dropLast,
                 valid_len_ := some subT.length }
      match buildTargets X s.step_size s.window_size subT.length with
      | .error e => (s2, some e)
      | .ok y =>
        let s3 : DetectorState := { s2 with gbr_ := some ⟨false, fun _ => 0⟩ }
        if subT.length = 0 then (s3, some .valueError)
        else
          let f := train subT y
          let s4 : DetectorState := { s3 with gbr_ := some ⟨true, f⟩ }
          let scores := List.zipWith (fun yi w => absDiff yi (f w)) y subT
          let s5 : DetectorState := { s4 with decision_scores_ := some scores }
          (process_decision_scores s5, none)

/-- `GBRegOD.decision_function` as a method call on the attribute state:
`check_is_fitted(self, ['gbr_'])`, windowing of the raw input (no
`check_array` here), trim of the last window, target construction, scoring
with the stored regressor.  The method performs no attribute assignment, so
the state component of the result is the incoming state, statement by
statement. -/
def decisionFunctionM (s : DetectorState) (X : List (List ℚ)) :
    Except PyErr (List ℚ × List ℕ × List ℕ) × DetectorState :=
  (match s.gbr_ with
   | none => .error .notFittedError
   | some g =>
     match get_sub_matrices X s.window_size s.step_size with
     | .error e => .error e
     | .ok (sub, li, ri) =>
       let subT := sub.dropLast
       match buildTargets X s.step_size s.window_size subT.length with
       | .error e => .error e
       | .ok y =>
         match gbPredict g subT with
         | .error e => .error e
         | .ok preds =>
           .ok (List.zipWith (fun yi p => absDiff yi p) y preds,
                li.dropLast, ri.dropLast),
   s)

/-- The value returned by `decision_function`. -/
def decision_function (s : DetectorState) (X : List (List ℚ)) :
    Except PyErr (List ℚ × List ℕ × List ℕ) :=
  (decisionFunctionM s X).1

/-- `GBRegOD.predict`: `check_is_fitted` on `decision_scores_`, `threshold_`
and `labels_`, then `decision_function`, then left-padding of the score and
index arrays with `window_size` zero entries, then binarization of the padded
scores by strict comparison with `threshold_`. -/
def predict (s : DetectorState) (X : List (List ℚ)) :
    Except PyErr (List ℕ × List ℕ × List ℕ) :=
  if s.decision_scores_ = none ∨ s.threshold_ = none ∨ s.labels_ = none then
    .error .notFittedError
  else
    match decision_function s X with
    | .error e => .error e
    | .ok (sc, liT, riT) =>
      let t := s.threshold_.getD 0
      let scP := List.replicate s.window_size (0 : ℚ) ++ sc
      .ok (scP.map (fun x => if t < x then 1 else 0),
           List.replicate s.window_size 0 ++ liT,
           List.replicate s.window_size 0 ++ riT)

/-- Decidable equality of `Except` results, so that concrete runs can be
checked by `decide`. -/
instance {ε α : Type} [DecidableEq ε] [DecidableEq α] : DecidableEq (Except ε α) :=
  fun a b =>
    match a, b with
    | .error e, .error e' =>
      if h : e = e' then .isTrue (by rw [h]) else
        .isFalse (fun hh => h (by injection hh))
    | .ok x, .ok y =>
      if h : x = y then .isTrue (by rw [h]) else
        .isFalse (fun hh => h (by injection hh))
    | .error _, .ok _ => .isFalse (fun hh => by injection hh)
    | .ok _, .error _ => .isFalse (fun hh => by injection hh)

/-! ### Helper lemmas about the windowing stage -/

theorem get_sub_matrices_ok (X : List (List ℚ)) (W S : ℕ) (hW : W ≤ X.length) :
    get_sub_matrices X W S =
      .ok ((List.range ((X.length - W) / S + 1)).map
             (fun i => ((X.drop (i * S)).take W).flatten),
           (List.range ((X.length - W) / S + 1)).map (fun i => i * S),
           (List.range ((X.length - W) / S + 1)).map (fun i => i * S + W)) := by
  unfold get_sub_matrices
  rw [if_neg (not_lt.2 hW)]

theorem getD_dropLast_range_map (g : ℕ → ℕ) (cnt i : ℕ) (hi : i < cnt - 1) :
    (((List.range cnt).map g).dropLast).getD i 0 = g i := by
  have hlen : (((List.range cnt).map g).dropLast).length = cnt - 1 := by
    simp
  rw [List.getD_eq_getElem _ _ (by rw [hlen]; exact hi)]
  rw [List.getElem_dropLast, List.getElem_map, List.getElem_range]

theorem length_dropLast_range_map (g : ℕ → ℕ) (cnt : ℕ) :
    (((List.range cnt).map g).dropLast).length = cnt - 1 := by
  simp

/-! ### Helper lemmas about target construction -/

theorem buildTargetsGo_ok_length (X : List (List ℚ)) (S W : ℕ) :
    ∀ (l : List ℕ) (y : List ℚ), buildTargetsGo X S W l = .ok y →
      y.length = l.length := by
  intro l
  induction l with
  | nil => intro y h; cases h; rfl
  | cons i rest ih =>
    intro y h
    unfold buildTargetsGo at h
    cases hta : targetAt X S W i with
    | error e => rw [hta] at h; cases h
    | ok q =>
      rw [hta] at h
      cases hrest : buildTargetsGo X S W rest with
      | error e => rw [hrest] at h; cases h
      | ok qs =>
        rw [hrest] at h
        cases h
        simp [ih qs hrest]

theorem buildTargetsGo_ok_get (X : List (List ℚ)) (S W : ℕ) :
    ∀ (l : List ℕ) (y : List ℚ), buildTargetsGo X S W l = .ok y →
      ∀ j, j < l.length → targetAt X S W (l.getD j 0) = .ok (y.getD j 0) := by
  intro l
  induction l with
  | nil => intro y _ j hj; cases hj
  | cons i rest ih =>
    intro y h j hj
    unfold buildTargetsGo at h
    cases hta : targetAt X S W i with
    | error e => rw [hta] at h; cases h
    | ok q =>
      rw [hta] at h
      cases hrest : buildTargetsGo X S W rest with
      | error e => rw [hrest] at h; cases h
      | ok qs =>
        rw [hrest] at h
        cases h
        cases j with
        | zero => simpa using hta
        | succ j' =>
          have hj' : j' < rest.length := by simpa using hj
          simpa using ih qs hrest j' hj'

theorem targetAt_ne_indexError (X : List (List ℚ)) (S W i : ℕ)
    (hi : i * S + W < X.length) : targetAt X S W i ≠ .error .indexError := by
  unfold targetAt
  cases hget : X.get? (i * S + W) with
  | none =>
    rw [List.get?_eq_none] at hget
    exact absurd hi (not_lt.2 hget)
  | some row =>
    dsimp only
    by_cases hrow : row.length = 1
    · rw [if_pos hrow]
      intro h
      cases h
    · rw [if_neg hrow]
      intro h
      injection h with h2
      simp at h2

theorem buildTargetsGo_ne_indexError (X : List (List ℚ)) (S W : ℕ) :
    ∀ (l : List ℕ), (∀ i ∈ l, i * S + W < X.length) →
      buildTargetsGo X S W l ≠ .error .indexError := by
  intro l
  induction l with
  | nil => intro _ h; cases h
  | cons i rest ih =>
    intro hbound h
    unfold buildTargetsGo at h
    cases hta : targetAt X S W i with
    | error e =>
      rw [hta] at h
      injection h with he
      subst he
      exact targetAt_ne_indexError X S W i
        (hbound i (List.mem_cons_self i rest)) hta
    | ok q =>
      rw [hta] at h
      cases hrest : buildTargetsGo X S W rest with
      | error e =>
        rw [hrest] at h
        injection h with he
        subst he
        exact ih (fun j hj => hbound j (List.mem_cons_of_mem i hj)) hrest
      | ok qs => rw [hrest] at h; cases h

/-! ### Inversion lemmas for the detector methods -/

theorem check_array_ok_eq (X Y : List (List ℚ)) (h : check_array X = .ok Y) :
    Y = X := by
  unfold check_array at h
  split at h
  · cases h
  · split at h
    · cases h
    · split at h
      · cases h
      · injection h with h1
        exact h1.symm

theorem process_fields (s : DetectorState) :
    (process_decision_scores s).window_size = s.window_size ∧
    (process_decision_scores s).step_size = s.step_size ∧
    (process_decision_scores s).contamination = s.contamination ∧
    (process_decision_scores s).gbr_ = s.gbr_ ∧
    (process_decision_scores s).decision_scores_ = s.decision_scores_ ∧
    (process_decision_scores s).left_inds_ = s.left_inds_ ∧
    (process_decision_scores s).right_inds_ = s.right_inds_ ∧
    (process_decision_scores s).valid_len_ = s.valid_len_ ∧
    (process_decision_scores s).threshold_ =
      some (threshold_of (s.decision_scores_.getD []) s.contamination) ∧
    (process_decision_scores s).labels_ =
      some ((s.decision_scores_.getD []).map
        (fun x => if threshold_of (s.decision_scores_.getD []) s.contamination < x
                  then 1 else 0)) :=
  ⟨rfl, rfl, rfl, rfl, rfl, rfl, rfl, rfl, rfl, rfl⟩

theorem fit_ok_inv (train : List (List ℚ) → List ℚ → List ℚ → ℚ)
    (s : DetectorState) (X : List (List ℚ)) (s' : DetectorState)
    (h : fit train s X = (s', none)) :
    check_array X = .ok X ∧
    s.window_size ≤ X.length ∧
    ∃ y,
      buildTargets X s.step_size s.window_size
        ((((List.range ((X.length - s.window_size) / s.step_size + 1)).map
          (fun i => ((X.drop (i * s.step_size)).take s.window_size).flatten)).dropLast).length)
        = .ok y ∧
      ¬((((List.range ((X.length - s.window_size) / s.step_size + 1)).map
          (fun i => ((X.drop (i * s.step_size)).take s.window_size).flatten)).dropLast).length = 0) ∧
      s' = process_decision_scores
        { s with
          left_inds_ := some (((List.range ((X.length - s.window_size) / s.step_size + 1)).map
            (fun i => i * s.step_size)).dropLast),
          right_inds_ := some (((List.range ((X.length - s.window_size) / s.step_size + 1)).map
            (fun i => i * s.step_size + s.window_size)).dropLast),
          valid_len_ := some ((((List.range ((X.length - s.window_size) / s.step_size + 1)).map
            (fun i => ((X.drop (i * s.step_size)).take s.window_size).flatten)).dropLast).length),
          gbr_ := some ⟨true, train
            (((List.range ((X.length - s.window_size) / s.step_size + 1)).map
              (fun i => ((X.drop (i * s.step_size)).take s.window_size).flatten)).dropLast) y⟩,
          decision_scores_ := some (List.zipWith
            (fun yi w => absDiff yi (train
              (((List.range ((X.length - s.window_size) / s.step_size + 1)).map
                (fun i => ((X.drop (i * s.step_size)).take s.window_size).flatten)).dropLast) y w))
            y
            (((List.range ((X.length - s.window_size) / s.step_size + 1)).map
              (fun i => ((X.drop (i * s.step_size)).take s.window_size).flatten)).dropLast)) } := by
  unfold fit at h
  cases hca : check_array X with
  | error e => rw [hca] at h; simp at h
  | ok X1 =>
    have hX1 : X1 = X := check_array_ok_eq X X1 hca
    rw [hX1] at hca
    rw [hca] at h
    dsimp only at h
    by_cases hW : s.window_size ≤ X.length
    · rw [get_sub_matrices_ok X s.window_size s.step_size hW] at h
      dsimp only at h
      cases hbt : buildTargets X s.step_size s.window_size
          ((((List.range ((X.length - s.window_size) / s.step_size + 1)).map
            (fun i => ((X.drop (i * s.step_size)).take s.window_size).flatten)).dropLast).length) with
      | error e => rw [hbt] at h; simp at h
      | ok y =>
        rw [hbt] at h
        dsimp only at h
        by_cases hz : (((List.range ((X.length - s.window_size) / s.step_size + 1)).map
            (fun i => ((X.drop (i * s.step_size)).take s.window_size).flatten)).dropLast).length = 0
        · rw [if_pos hz] at h
          simp at h
        · rw [if_neg hz] at h
          injection h with h1 h2
          exact ⟨by rw [hX1], hW, y, rfl, hz, h1.symm⟩
    · unfold get_sub_matrices at h
      rw [if_pos (not_le.1 hW)] at h
      simp at h

theorem decision_function_ok_inv (s : DetectorState) (X : List (List ℚ))
    (out : List ℚ × List ℕ × List ℕ) (h : decision_function s X = .ok out) :
    ∃ g, s.gbr_ = some g ∧ g.fitted = true ∧ s.window_size ≤ X.length ∧
    ∃ y,
      buildTargets X s.step_size s.window_size
        ((((List.range ((X.length - s.window_size) / s.step_size + 1)).map
          (fun i => ((X.drop (i * s.step_size)).take s.window_size).flatten)).dropLast).length)
        = .ok y ∧
      out = (List.zipWith (fun yi p => absDiff yi p) y
              ((((List.range ((X.length - s.window_size) / s.step_size + 1)).map
                (fun i => ((X.drop (i * s.step_size)).take s.window_size).flatten)).dropLast).map g.f),
             ((List.range ((X.length - s.window_size) / s.step_size + 1)).map
               (fun i => i * s.step_size)).dropLast,
             ((List.range ((X.length - s.window_size) / s.step_size + 1)).map
               (fun i => i * s.step_size + s.window_size)).dropLast) := by
  unfold decision_function decisionFunctionM at h
  dsimp only at h
  cases hg : s.gbr_ with
  | none => rw [hg] at h; cases h
  | some g =>
    rw [hg] at h
    dsimp only at h
    by_cases hW : s.window_size ≤ X.length
    · rw [get_sub_matrices_ok X s.window_size s.step_size hW] at h
      dsimp only at h
      cases hbt : buildTargets X s.step_size s.window_size
          ((((List.range ((X.length - s.window_size) / s.step_size + 1)).map
            (fun i => ((X.drop (i * s.step_size)).take s.window_size).flatten)).dropLast).length) with
      | error e => rw [hbt] at h; cases h
      | ok y =>
        rw [hbt] at h
        dsimp only at h
        cases hgp : gbPredict g
            (((List.range ((X.length - s.window_size) / s.step_size + 1)).map
              (fun i => ((X.drop (i * s.step_size)).take s.window_size).flatten)).dropLast) with
        | error e => rw [hgp] at h; cases h
        | ok preds =>
          rw [hgp] at h
          dsimp only at h
          injection h with h1
          unfold gbPredict at hgp
          by_cases hf : g.fitted = true
          · rw [if_pos hf] at hgp
            injection hgp with hpreds
            refine ⟨g, rfl, hf, hW, y, rfl, ?_⟩
            rw [← h1, ← hpreds]
          · rw [if_neg hf] at hgp
            cases hgp
    · unfold get_sub_matrices at h
      rw [if_pos (not_le.1 hW)] at h
      cases h

theorem decision_function_gbr_none (s : DetectorState) (X : List (List ℚ))
    (hg : s.gbr_ = none) : decision_function s X = .error .notFittedError := by
  unfold decision_function decisionFunctionM
  rw [hg]

theorem decision_function_unfitted_not_ok (s : DetectorState) (X : List (List ℚ))
    (g0 : List ℚ → ℚ) (hg : s.gbr_ = some ⟨false, g0⟩) :
    ∀ out, decision_function s X ≠ .ok out := by
  intro out h
  unfold decision_function decisionFunctionM at h
  dsimp only at h
  rw [hg] at h
  dsimp only at h
  cases hgsm : get_sub_matrices X s.window_size s.step_size with
  | error e => rw [hgsm] at h; cases h
  | ok t =>
    obtain ⟨sub, li, ri⟩ := t
    rw [hgsm] at h
    dsimp only at h
    cases hbt : buildTargets X s.step_size s.window_size sub.dropLast.length with
    | error e => rw [hbt] at h; cases h
    | ok y =>
      rw [hbt] at h
      simp [gbPredict] at h

theorem predict_not_fitted (s : DetectorState) (X : List (List ℚ))
    (hn : s.decision_scores_ = none ∨ s.threshold_ = none ∨ s.labels_ = none) :
    predict s X = .error .notFittedError := by
  unfold predict
  rw [if_pos hn]

theorem fit_fail_inv (train : List (List ℚ) → List ℚ → List ℚ → ℚ)
    (s : DetectorState) (X : List (List ℚ)) (s' : DetectorState) (e : PyErr)
    (h : fit train s X = (s', some e)) :
    s'.decision_scores_ = s.decision_scores_ ∧ s'.threshold_ = s.threshold_ ∧
    s'.labels_ = s.labels_ ∧
    (s'.gbr_ = s.gbr_ ∨ s'.gbr_ = some ⟨false, fun _ => 0⟩) := by
  unfold fit at h
  cases hca : check_array X with
  | error e2 =>
    rw [hca] at h
    injection h with h1 h2
    subst h1
    exact ⟨rfl, rfl, rfl, Or.inl rfl⟩
  | ok X1 =>
    rw [hca] at h
    dsimp only at h
    cases hgsm : get_sub_matrices X1 s.window_size s.step_size with
    | error e2 =>
      rw [hgsm] at h
      injection h with h1 h2
      subst h1
      exact ⟨rfl, rfl, rfl, Or.inl rfl⟩
    | ok t =>
      obtain ⟨sub, li, ri⟩ := t
      rw [hgsm] at h
      dsimp only at h
      cases hbt : buildTargets X1 s.step_size s.window_size sub.dropLast.length with
      | error e2 =>
        rw [hbt] at h
        injection h with h1 h2
        subst h1
        exact ⟨rfl, rfl, rfl, Or.inl rfl⟩
      | ok y =>
        rw [hbt] at h
        dsimp only at h
        by_cases hz : sub.dropLast.length = 0
        · rw [if_pos hz] at h
          injection h with h1 h2
          subst h1
          exact ⟨rfl, rfl, rfl, Or.inr rfl⟩
        · rw [if_neg hz] at h
          injection h with h1 h2
          cases h2

theorem init_ok_inv (W S : ℕ) (c : ℚ) (s₀ : DetectorState)
    (h : init W S c = .ok s₀) :
    s₀ = { window_size := W, step_size := S, contamination := c } ∧
      0 < c ∧ c < oneHalf := by
  unfold init at h
  by_cases hc : 0 < c ∧ c < oneHalf
  · rw [if_pos hc] at h
    injection h with h1
    exact ⟨h1.symm, hc.1, hc.2⟩
  · rw [if_neg hc] at h
    cases h

theorem absDiff_nonneg (a b : ℚ) : 0 ≤ absDiff a b := by
  rw [absDiff_eq]
  exact abs_nonneg _

theorem zipWith_absDiff_nonneg (f : List ℚ → ℚ) :
    ∀ (y : List ℚ) (w : List (List ℚ)) (x : ℚ),
      x ∈ List.zipWith (fun yi wi => absDiff yi (f wi)) y w → 0 ≤ x := by
  intro y
  induction y with
  | nil => intro w x hx; cases hx
  | cons a y' ih =>
    intro w x hx
    cases w with
    | nil => cases hx
    | cons b w' =>
      rcases List.mem_cons.1 hx with h1 | h2
      · rw [h1]; exact absDiff_nonneg _ _
      · exact ih w' x h2

/-! ### Lemmas about the modelled thresholding layer -/

theorem threshold_of_mem (scores : List ℚ) (c : ℚ) (hne : scores ≠ []) :
    threshold_of scores c ∈ scores := by
  unfold threshold_of
  have hlen : (scores.insertionSort (· ≤ ·)).length = scores.length :=
    List.length_insertionSort _ _
  have hidx : scores.length - 1 - kOf scores.length c <
      (scores.insertionSort (· ≤ ·)).length := by
    rw [hlen]
    have hpos : 0 < scores.length := List.length_pos.2 hne
    omega
  rw [List.getD_eq_getElem _ _ hidx]
  exact (List.mem_insertionSort (· ≤ ·)).1 (List.getElem_mem hidx)

theorem threshold_of_nonneg (scores : List ℚ) (c : ℚ) (hne : scores ≠ [])
    (hpos : ∀ x ∈ scores, 0 ≤ x) : 0 ≤ threshold_of scores c :=
  hpos _ (threshold_of_mem scores c hne)

theorem kOf_lt (n : ℕ) (c : ℚ) (hc : c < oneHalf) (hn : 1 ≤ n) :
    kOf n c < n := by
  rw [kOf_eq]
  have hc1 : c < 1 := by
    rw [mkRat_one_two] at hc
    calc c < 1 / 2 := hc
    _ < 1 := by norm_num
  have hfl : ⌊(n : ℚ) * c⌋ < (n : ℤ) := by
    rw [Int.floor_lt]
    push_cast
    calc (n : ℚ) * c < (n : ℚ) * 1 := by
          apply mul_lt_mul_of_pos_left hc1
          exact_mod_cast Nat.lt_of_lt_of_le Nat.zero_lt_one hn
    _ = (n : ℚ) := mul_one _
  omega

theorem countP_gt_threshold_le (scores : List ℚ) (c : ℚ) (hne : scores ≠ []) :
    List.countP (fun x => decide (threshold_of scores c < x)) scores ≤
      kOf scores.length c := by
  have hperm : List.Perm (scores.insertionSort (· ≤ ·)) scores :=
    List.perm_insertionSort _ _
  have hsort : (scores.insertionSort (· ≤ ·)).Sorted (· ≤ ·) :=
    List.sorted_insertionSort _ _
  have hlen : (scores.insertionSort (· ≤ ·)).length = scores.length :=
    List.length_insertionSort _ _
  have hpos : 0 < scores.length := List.length_pos.2 hne
  have hmlt : scores.length - 1 - kOf scores.length c <
      (scores.insertionSort (· ≤ ·)).length := by rw [hlen]; omega
  have ht : threshold_of scores c =
      (scores.insertionSort (· ≤ ·))[scores.length - 1 - kOf scores.length c] := by
    unfold threshold_of
    rw [List.getD_eq_getElem _ _ hmlt]
  rw [← hperm.countP_eq]
  have hsplit : List.countP (fun x => decide (threshold_of scores c < x))
      (scores.insertionSort (· ≤ ·)) =
      List.countP (fun x => decide (threshold_of scores c < x))
        ((scores.insertionSort (· ≤ ·)).take (scores.length - 1 - kOf scores.length c + 1)) +
      List.countP (fun x => decide (threshold_of scores c < x))
        ((scores.insertionSort (· ≤ ·)).drop (scores.length - 1 - kOf scores.length c + 1)) := by
    rw [← List.countP_append, List.take_append_drop]
  rw [hsplit]
  have htake : List.countP (fun x => decide (threshold_of scores c < x))
      ((scores.insertionSort (· ≤ ·)).take (scores.length - 1 - kOf scores.length c + 1)) = 0 := by
    rw [List.countP_eq_zero]
    intro x hx
    obtain ⟨i, hi, hxeq⟩ := List.mem_iff_getElem.1 hx
    have hit : i < scores.length - 1 - kOf scores.length c + 1 := by
      have := hi
      rw [List.length_take] at this
      omega
    have hisort : i < (scores.insertionSort (· ≤ ·)).length := by
      rw [hlen]; omega
    have hval : x = (scores.insertionSort (· ≤ ·))[i] := by
      rw [← hxeq, List.getElem_take]
    have hle : (scores.insertionSort (· ≤ ·))[i] ≤
        (scores.insertionSort (· ≤ ·))[scores.length - 1 - kOf scores.length c] := by
      rcases Nat.lt_or_ge i (scores.length - 1 - kOf scores.length c) with hlt | hge
      · exact hsort.rel_get_of_lt
          (show (⟨i, hisort⟩ : Fin _) < ⟨scores.length - 1 - kOf scores.length c, hmlt⟩ from hlt)
      · have : i = scores.length - 1 - kOf scores.length c := by omega
        subst this
        exact le_refl _
    simp only [decide_eq_true_eq]
    rw [ht, hval]
    exact not_lt.2 hle
  have hdrop : List.countP (fun x => decide (threshold_of scores c < x))
      ((scores.insertionSort (· ≤ ·)).drop (scores.length - 1 - kOf scores.length c + 1)) ≤
      kOf scores.length c := by
    calc List.countP _ _ ≤
        ((scores.insertionSort (· ≤ ·)).drop
          (scores.length - 1 - kOf scores.length c + 1)).length :=
          List.countP_le_length _
    _ ≤ kOf scores.length c := by
          rw [List.length_drop, hlen]
          omega
  omega

theorem countP_gt_threshold_eq_of_nodup (scores : List ℚ) (c : ℚ) (hne : scores ≠ [])
    (hk : kOf scores.length c ≤ scores.length - 1) (hnd : scores.Nodup) :
    List.countP (fun x => decide (threshold_of scores c < x)) scores =
      kOf scores.length c := by
  have hperm : List.Perm (scores.insertionSort (· ≤ ·)) scores :=
    List.perm_insertionSort _ _
  have hsort : (scores.insertionSort (· ≤ ·)).Sorted (· ≤ ·) :=
    List.sorted_insertionSort _ _
  have hlen : (scores.insertionSort (· ≤ ·)).length = scores.length :=
    List.length_insertionSort _ _
  have hpos : 0 < scores.length := List.length_pos.2 hne
  have hndS : (scores.insertionSort (· ≤ ·)).Nodup := hperm.nodup_iff.2 hnd
  have hmlt : scores.length - 1 - kOf scores.length c <
      (scores.insertionSort (· ≤ ·)).length := by rw [hlen]; omega
  have ht : threshold_of scores c =
      (scores.insertionSort (· ≤ ·))[scores.length - 1 - kOf scores.length c] := by
    unfold threshold_of
    rw [List.getD_eq_getElem _ _ hmlt]
  refine le_antisymm (countP_gt_threshold_le scores c hne) ?_
  rw [← hperm.countP_eq]
  have hsplit : List.countP (fun x => decide (threshold_of scores c < x))
      (scores.insertionSort (· ≤ ·)) =
      List.countP (fun x => decide (threshold_of scores c < x))
        ((scores.insertionSort (· ≤ ·)).take (scores.length - 1 - kOf scores.length c + 1)) +
      List.countP (fun x => decide (threshold_of scores c < x))
        ((scores.insertionSort (· ≤ ·)).drop (scores.length - 1 - kOf scores.length c + 1)) := by
    rw [← List.countP_append, List.take_append_drop]
  rw [hsplit]
  have hdrop : List.countP (fun x => decide (threshold_of scores c < x))
      ((scores.insertionSort (· ≤ ·)).drop (scores.length - 1 - kOf scores.length c + 1)) =
      kOf scores.length c := by
    have hall : ∀ x ∈ (scores.insertionSort (· ≤ ·)).drop
        (scores.length - 1 - kOf scores.length c + 1),
        threshold_of scores c < x := by
      intro x hx
      obtain ⟨j, hj, hxeq⟩ := List.mem_iff_getElem.1 hx
      have hjlen : scores.length - 1 - kOf scores.length c + 1 + j <
          (scores.insertionSort (· ≤ ·)).length := by
        have := hj
        rw [List.length_drop] at this
        omega
      have hval : x = (scores.insertionSort (· ≤ ·))[scores.length - 1 -
          kOf scores.length c + 1 + j] := by
        rw [← hxeq, List.getElem_drop]
      have hle : (scores.insertionSort (· ≤ ·))[scores.length - 1 - kOf scores.length c] ≤
          (scores.insertionSort (· ≤ ·))[scores.length - 1 - kOf scores.length c + 1 + j] :=
        hsort.rel_get_of_lt
          (show (⟨scores.length - 1 - kOf scores.length c, hmlt⟩ : Fin _) <
            ⟨scores.length - 1 - kOf scores.length c + 1 + j, hjlen⟩ from by
              show scores.length - 1 - kOf scores.length c <
                scores.length - 1 - kOf scores.length c + 1 + j
              omega)
      have hneq : (scores.insertionSort (· ≤ ·))[scores.length - 1 - kOf scores.length c] ≠
          (scores.insertionSort (· ≤ ·))[scores.length - 1 - kOf scores.length c + 1 + j] := by
        intro heq
        have := (List.Nodup.getElem_inj_iff hndS).1 heq
        omega
      rw [ht, hval]
      exact lt_of_le_of_ne hle hneq
    have : List.countP (fun x => decide (threshold_of scores c < x))
        ((scores.insertionSort (· ≤ ·)).drop (scores.length - 1 - kOf scores.length c + 1)) =
        ((scores.insertionSort (· ≤ ·)).drop
          (scores.length - 1 - kOf scores.length c + 1)).length := by
      rw [List.countP_eq_length]
      intro a ha
      simpa using hall a ha
    rw [this, List.length_drop, hlen]
    omega
  omega

theorem getD_range (n i : ℕ) (hi : i < n) : (List.range n).getD i 0 = i := by
  rw [List.getD_eq_getElem _ _ (by simpa using hi)]
  exact List.getElem_range _ (by simpa using hi)

theorem fit_inds (train : List (List ℚ) → List ℚ → List ℚ → ℚ)
    (s : DetectorState) (X : List (List ℚ))
    (hca : check_array X = .ok X) (hW : s.window_size ≤ X.length) :
    (fit train s X).1.left_inds_ =
      some (((List.range ((X.length - s.window_size) / s.step_size + 1)).map
        (fun i => i * s.step_size)).dropLast) ∧
    (fit train s X).1.right_inds_ =
      some (((List.range ((X.length - s.window_size) / s.step_size + 1)).map
        (fun i => i * s.step_size + s.window_size)).dropLast) ∧
    (fit train s X).1.valid_len_ =
      some ((((List.range ((X.length - s.window_size) / s.step_size + 1)).map
        (fun i => ((X.drop (i * s.step_size)).take s.window_size).flatten)).dropLast).length) := by
  unfold fit
  rw [hca]
  dsimp only
  rw [get_sub_matrices_ok X s.window_size s.step_size hW]
  dsimp only
  cases hbt : buildTargets X s.step_size s.window_size
      ((((List.range ((X.length - s.window_size) / s.step_size + 1)).map
        (fun i => ((X.drop (i * s.step_size)).take s.window_size).flatten)).dropLast).length) with
  | error e => exact ⟨rfl, rfl, rfl⟩
  | ok y =>
    dsimp only
    by_cases hz : (((List.range ((X.length - s.window_size) / s.step_size + 1)).map
        (fun i => ((X.drop (i * s.step_size)).take s.window_size).flatten)).dropLast).length = 0
    · rw [if_pos hz]
      exact ⟨rfl, rfl, rfl⟩
    · rw [if_neg hz]
      exact ⟨rfl, rfl, rfl⟩

theorem fit_ok_state (train : List (List ℚ) → List ℚ → List ℚ → ℚ)
    (s : DetectorState) (X : List (List ℚ)) (s' : DetectorState)
    (h : fit train s X = (s', none)) :
    ∃ ds gf,
      s'.decision_scores_ = some ds ∧ ds ≠ [] ∧ (∀ x ∈ ds, 0 ≤ x) ∧
      s'.threshold_ = some (threshold_of ds s.contamination) ∧
      s'.labels_ = some (ds.map
        (fun x => if threshold_of ds s.contamination < x then 1 else 0)) ∧
      s'.gbr_ = some ⟨true, gf⟩ ∧
      s'.window_size = s.window_size ∧ s'.step_size = s.step_size ∧
      s'.contamination = s.contamination := by
  obtain ⟨hca, hW, y, hbt, hz, hs'⟩ := fit_ok_inv train s X s' h
  subst hs'
  have hylen : y.length =
      (((List.range ((X.length - s.window_size) / s.step_size + 1)).map
        (fun i => ((X.drop (i * s.step_size)).take s.window_size).flatten)).dropLast).length := by
    have := buildTargetsGo_ok_length X s.step_size s.window_size _ y hbt
    simpa using this
  refine ⟨_, _, rfl, ?_, ?_, rfl, rfl, rfl, rfl, rfl, rfl⟩
  · intro hnil
    have hlen0 : (List.zipWith
        (fun yi w => absDiff yi ((train
          (((List.range ((X.length - s.window_size) / s.step_size + 1)).map
            (fun i => ((X.drop (i * s.step_size)).take s.window_size).flatten)).dropLast) y) w))
        y
        (((List.range ((X.length - s.window_size) / s.step_size + 1)).map
          (fun i => ((X.drop (i * s.step_size)).take s.window_size).flatten)).dropLast)).length = 0 := by
      rw [hnil]
      rfl
    rw [List.length_zipWith, hylen] at hlen0
    simp at hlen0
    apply hz
    simpa using hlen0
  · exact zipWith_absDiff_nonneg _ y _

theorem predict_ok_inv (s : DetectorState) (X : List (List ℚ))
    (lbls li ri : List ℕ) (h : predict s X = .ok (lbls, li, ri)) :
    ∃ t sc liT riT, s.threshold_ = some t ∧
      decision_function s X = .ok (sc, liT, riT) ∧
      lbls = (List.replicate s.window_size (0 : ℚ) ++ sc).map
        (fun x => if t < x then 1 else 0) ∧
      li = List.replicate s.window_size 0 ++ liT ∧
      ri = List.replicate s.window_size 0 ++ riT := by
  unfold predict at h
  split at h
  · cases h
  · rename_i hnone
    cases hdf : decision_function s X with
    | error e => rw [hdf] at h; cases h
    | ok out =>
      obtain ⟨sc, liT, riT⟩ := out
      rw [hdf] at h
      dsimp only at h
      have ht : ∃ t, s.threshold_ = some t := by
        rcases hth : s.threshold_ with _ | t
        · exact absurd (Or.inr (Or.inl hth)) hnone
        · exact ⟨t, rfl⟩
      obtain ⟨t, ht⟩ := ht
      injection h with h1
      injection h1 with ha h2
      injection h2 with hb hc
      refine ⟨t, sc, liT, riT, ht, rfl, ?_, hb.symm, hc.symm⟩
      rw [← ha, ht]
      rfl

/-! ### Concrete data for witnesses and counterexamples -/

/-- A concrete stand-in for the deterministic sklearn training procedure:
the learned function that predicts 0 for every window. -/
def trainZero : List (List ℚ) → List ℚ → List ℚ → ℚ := fun _ _ _ => 0

/-- The 14-sample training series of the spec example. -/
def Xtrain14 : List (List ℚ) :=
  [[3],[4],[8],[16],[18],[13],[22],[36],[59],[128],[62],[67],[78],[100]]

/-- Detector state as constructed by `GBRegOD(window_size=3)` with the
default `step_size=1` and `contamination=0.1`. -/
def sWin3 : DetectorState :=
  { window_size := 3, step_size := 1, contamination := mkRat 1 10 }

/-- An 11-sample univariate test series. -/
def Xtest11 : List (List ℚ) :=
  [[1],[2],[3],[4],[5],[6],[7],[8],[9],[10],[11]]

/-- Nine constant samples: every window then has the same residual, forcing
ties at the quantile boundary. -/
def Xones9 : List (List ℚ) := [[1],[1],[1],[1],[1],[1],[1],[1],[1]]

/-- Detector state with `window_size=1`, `step_size=1`, `contamination=0.2`. -/
def sOnes : DetectorState :=
  { window_size := 1, step_size := 1, contamination := mkRat 1 5 }

/-- A well-formed two-feature (multivariate) input. -/
def Xmulti4 : List (List ℚ) := [[1,2],[3,4],[5,6],[7,8]]

/-- Detector state with `window_size=1`, `step_size=1`, `contamination=0.1`. -/
def sMulti : DetectorState :=
  { window_size := 1, step_size := 1, contamination := mkRat 1 10 }

/-- Three samples: with `window_size=3` the single raw window is trimmed
away and the regressor is fitted on an empty matrix, which raises. -/
def Xshort3 : List (List ℚ) := [[1],[2],[3]]

/-- Two samples, shorter than `window_size=3`. -/
def Xtwo : List (List ℚ) := [[1],[2]]

/-- Six samples, used with stride 2. -/
def Xsix : List (List ℚ) := [[1],[2],[3],[4],[5],[6]]

/-- Detector state with `window_size=1`, `step_size=2`, `contamination=0.2`. -/
def sStep2 : DetectorState :=
  { window_size := 1, step_size := 2, contamination := mkRat 1 5 }

/-! ### Claim theorems -/

/-- C7 (amended): construction validates only `contamination`: it succeeds —
returning a state holding the given parameters and no fitted attributes —
exactly when `contamination` lies in the open interval `(0, 1/2)`
(`oneHalf = 1/2`), whatever `window_size` and `step_size` are, and raises a
ValueError-class ConfigurationError otherwise; in particular
`contamination = 0.6` raises, but `window_size < 1` or `step_size < 1` is
not rejected at construction time. -/
theorem init_validates_only_contamination :
    oneHalf = 1 / 2 ∧
    ∀ (W S : ℕ) (c : ℚ),
      ((0 < c ∧ c < oneHalf) →
        init W S c = .ok { window_size := W, step_size := S, contamination := c }) ∧
      (¬(0 < c ∧ c < oneHalf) → init W S c = .error .valueError) := by
  refine ⟨mkRat_one_two, fun W S c => ⟨fun hc => ?_, fun hc => ?_⟩⟩
  · unfold init
    rw [if_pos hc]
  · unfold init
    rw [if_neg hc]

/-- Witness for C7: a valid construction and the `contamination = 3/5`
rejection, obtained from the theorem at concrete parameters. -/
theorem init_validates_only_contamination_witness :
    init 3 1 (mkRat 1 10) =
      .ok { window_size := 3, step_size := 1, contamination := mkRat 1 10 } ∧
    init 1 1 (mkRat 3 5) = .error .valueError :=
  ⟨(init_validates_only_contamination.2 3 1 (mkRat 1 10)).1 (by decide),
   (init_validates_only_contamination.2 1 1 (mkRat 3 5)).2 (by decide)⟩

/-- C7 counterexample: the claim says `window_size < 1` or `step_size < 1`
fails at construction, but construction succeeds with `window_size = 0` and
with `step_size = 0`. -/
theorem init_accepts_degenerate_sizes_counterexample :
    init 0 1 (mkRat 1 10) =
      .ok { window_size := 0, step_size := 1, contamination := mkRat 1 10 } ∧
    init 1 0 (mkRat 1 10) =
      .ok { window_size := 1, step_size := 0, contamination := mkRat 1 10 } :=
  ⟨rfl, rfl⟩

/-- C8: `decision_function` reads but never mutates the detector state: the
attribute state after the call is exactly the incoming state, and repeating
the call on the resulting state with the same input yields the identical
result and scores. -/
theorem decision_function_pure (s : DetectorState) (X : List (List ℚ)) :
    (decisionFunctionM s X).2 = s ∧
    decisionFunctionM ((decisionFunctionM s X).2) X = decisionFunctionM s X ∧
    decision_function ((decisionFunctionM s X).2) X = decision_function s X :=
  ⟨rfl, rfl, rfl⟩

/-- C5 (amended): a successful `fit` populates every fitted attribute; a
failed `fit` leaves the regression model absent or unfitted and
`decision_scores_`, `threshold_`, `labels_` unpopulated — but, unlike the
claim, a failure after the windowing stage leaves `left_inds_`,
`right_inds_` and `valid_len_` populated, so `fit` is not atomic. -/
theorem fit_atomicity :
    (∀ train (W S : ℕ) (c : ℚ) X (s₀ s' : DetectorState),
      init W S c = .ok s₀ → fit train s₀ X = (s', none) →
      s'.gbr_.isSome = true ∧ s'.decision_scores_.isSome = true ∧
      s'.threshold_.isSome = true ∧ s'.labels_.isSome = true ∧
      s'.left_inds_.isSome = true ∧ s'.right_inds_.isSome = true ∧
      s'.valid_len_.isSome = true) ∧
    (∀ train (W S : ℕ) (c : ℚ) X (s₀ s' : DetectorState) (e : PyErr),
      init W S c = .ok s₀ → fit train s₀ X = (s', some e) →
      s'.decision_scores_ = none ∧ s'.threshold_ = none ∧ s'.labels_ = none ∧
      (s'.gbr_ = none ∨ s'.gbr_ = some ⟨false, fun _ => 0⟩)) := by
  constructor
  · intro train W S c X s₀ s' hinit hfit
    obtain ⟨hca, hW, y, hbt, hz, hs'⟩ := fit_ok_inv train s₀ X s' hfit
    subst hs'
    exact ⟨rfl, rfl, rfl, rfl, rfl, rfl, rfl⟩
  · intro train W S c X s₀ s' e hinit hfail
    obtain ⟨hs0eq, hc0, hc1⟩ := init_ok_inv W S c s₀ hinit
    obtain ⟨h1, h2, h3, h4⟩ := fit_fail_inv train s₀ X s' e hfail
    subst hs0eq
    refine ⟨h1.trans rfl, h2.trans rfl, h3.trans rfl, ?_⟩
    rcases h4 with h4 | h4
    · exact Or.inl (h4.trans rfl)
    · exact Or.inr h4

/-- Witness for C5: the success half on the spec's 14-sample example, the
failure half on a two-feature input. -/
theorem fit_atomicity_witness :
    ((fit trainZero sWin3 Xtrain14).1.gbr_.isSome = true ∧
     (fit trainZero sWin3 Xtrain14).1.decision_scores_.isSome = true ∧
     (fit trainZero sWin3 Xtrain14).1.threshold_.isSome = true ∧
     (fit trainZero sWin3 Xtrain14).1.labels_.isSome = true ∧
     (fit trainZero sWin3 Xtrain14).1.left_inds_.isSome = true ∧
     (fit trainZero sWin3 Xtrain14).1.right_inds_.isSome = true ∧
     (fit trainZero sWin3 Xtrain14).1.valid_len_.isSome = true) ∧
    ((fit trainZero sMulti Xmulti4).1.decision_scores_ = none ∧
     (fit trainZero sMulti Xmulti4).1.threshold_ = none ∧
     (fit trainZero sMulti Xmulti4).1.labels_ = none ∧
     ((fit trainZero sMulti Xmulti4).1.gbr_ = none ∨
      (fit trainZero sMulti Xmulti4).1.gbr_ = some ⟨false, fun _ => 0⟩)) := by
  constructor
  · apply fit_atomicity.1 trainZero 3 1 (mkRat 1 10) Xtrain14 sWin3
      (fit trainZero sWin3 Xtrain14).1 rfl
    have h2 : (fit trainZero sWin3 Xtrain14).2 = none := by decide
    rw [← h2]
  · apply fit_atomicity.2 trainZero 1 1 (mkRat 1 10) Xmulti4 sMulti
      (fit trainZero sMulti Xmulti4).1 .valueError rfl
    have h2 : (fit trainZero sMulti Xmulti4).2 = some .valueError := by decide
    rw [← h2]

/-- C5 counterexample: `fit` is not atomic — on a two-feature input the
target loop raises after the windowing attributes were assigned, leaving
`left_inds_`, `right_inds_` and `valid_len_` populated on an instance whose
pre-fit state had them absent. -/
theorem fit_atomicity_counterexample :
    init 1 1 (mkRat 1 10) = .ok sMulti ∧
    sMulti.left_inds_ = none ∧
    (fit trainZero sMulti Xmulti4).2 = some .valueError ∧
    (fit trainZero sMulti Xmulti4).1.left_inds_ = some [0, 1, 2] ∧
    (fit trainZero sMulti Xmulti4).1.right_inds_ = some [1, 2, 3] ∧
    (fit trainZero sMulti Xmulti4).1.valid_len_ = some 3 :=
  ⟨rfl, rfl, by decide, by decide, by decide, by decide⟩

/-- C6 (amended): on a detector without a successful `fit`, `predict` always
raises NotFittedError, and `decision_function` never succeeds: it raises
NotFittedError whenever the regressor attribute is absent (in particular on
any freshly constructed instance), but after a `fit` that failed late enough
to assign the (still unfitted) regressor attribute it can instead surface
the input-validation error of the windowing stage. -/
theorem not_fitted_behaviour :
    (∀ (s : DetectorState) X, s.gbr_ = none →
      decision_function s X = .error .notFittedError) ∧
    (∀ (s : DetectorState) X,
      s.decision_scores_ = none ∨ s.threshold_ = none ∨ s.labels_ = none →
      predict s X = .error .notFittedError) ∧
    (∀ train (W S : ℕ) (c : ℚ) X0 (s₀ s' : DetectorState) (e : PyErr),
      init W S c = .ok s₀ → fit train s₀ X0 = (s', some e) →
      ∀ X, predict s' X = .error .notFittedError ∧
        ∀ out, decision_function s' X ≠ .ok out) := by
  refine ⟨decision_function_gbr_none, predict_not_fitted, ?_⟩
  intro train W S c X0 s₀ s' e hinit hfail X
  obtain ⟨hs0eq, hc0, hc1⟩ := init_ok_inv W S c s₀ hinit
  obtain ⟨h1, h2, h3, h4⟩ := fit_fail_inv train s₀ X0 s' e hfail
  subst hs0eq
  constructor
  · exact predict_not_fitted s' X (Or.inl (h1.trans rfl))
  · intro out hok
    rcases h4 with h4 | h4
    · rw [decision_function_gbr_none s' X (h4.trans rfl)] at hok
      cases hok
    · exact decision_function_unfitted_not_ok s' X _ h4 out hok

/-- Witness for C6: NotFittedError on a freshly constructed detector for both
methods, and on `predict` after a failed `fit`. -/
theorem not_fitted_behaviour_witness :
    decision_function sWin3 Xtest11 = .error .notFittedError ∧
    predict sWin3 Xtest11 = .error .notFittedError ∧
    predict (fit trainZero sWin3 Xshort3).1 Xtest11 = .error .notFittedError := by
  refine ⟨not_fitted_behaviour.1 sWin3 Xtest11 rfl,
          not_fitted_behaviour.2.1 sWin3 Xtest11 (Or.inl rfl), ?_⟩
  have happ := not_fitted_behaviour.2.2 trainZero 3 1 (mkRat 1 10) Xshort3 sWin3
    (fit trainZero sWin3 Xshort3).1 .valueError rfl ?hfail Xtest11
  case hfail =>
    have h2 : (fit trainZero sWin3 Xshort3).2 = some .valueError := by decide
    rw [← h2]
  exact happ.1

/-- C6 counterexample: after a `fit` that failed at the regressor-fitting
stage (here: zero retained windows, so sklearn raises on an empty training
matrix), the unfitted regressor attribute exists, and `decision_function` on
an under-length input raises the windowing InvalidInputError instead of
NotFittedError. -/
theorem not_fitted_behaviour_counterexample :
    init 3 1 (mkRat 1 10) = .ok sWin3 ∧
    (fit trainZero sWin3 Xshort3).2 = some .valueError ∧
    decision_function (fit trainZero sWin3 Xshort3).1 Xtwo = .error .invalidInput ∧
    PyErr.invalidInput ≠ PyErr.notFittedError :=
  ⟨rfl, by decide, rfl, by decide⟩

theorem check_array_error_inv (X : List (List ℚ)) (e : PyErr)
    (h : check_array X = .error e) : e = .valueError := by
  unfold check_array at h
  split at h
  · injection h with h1; exact h1.symm
  · split at h
    · injection h with h1; exact h1.symm
    · split at h
      · injection h with h1; exact h1.symm
      · cases h

theorem get_sub_matrices_error_inv (X : List (List ℚ)) (W S : ℕ) (e : PyErr)
    (h : get_sub_matrices X W S = .error e) : e = .invalidInput := by
  unfold get_sub_matrices at h
  split at h
  · injection h with h1; exact h1.symm
  · cases h

theorem get_sub_matrices_ok_inv (X : List (List ℚ)) (W S : ℕ)
    (t : List (List ℚ) × List ℕ × List ℕ) (h : get_sub_matrices X W S = .ok t) :
    W ≤ X.length ∧
    t = ((List.range ((X.length - W) / S + 1)).map
           (fun i => ((X.drop (i * S)).take W).flatten),
         (List.range ((X.length - W) / S + 1)).map (fun i => i * S),
         (List.range ((X.length - W) / S + 1)).map (fun i => i * S + W)) := by
  unfold get_sub_matrices at h
  split at h
  · cases h
  · rename_i hnl
    injection h with h1
    exact ⟨not_lt.1 hnl, h1.symm⟩

theorem gbPredict_error_inv (g : GBState) (rows : List (List ℚ)) (e : PyErr)
    (h : gbPredict g rows = .error e) : e = .notFittedError := by
  unfold gbPredict at h
  split at h
  · cases h
  · injection h with h1; exact h1.symm

/-- C9: for every retained window, the index arrays stored by `fit` and the
index arrays returned by `decision_function` satisfy
`left_inds[i] = i * step_size` and
`right_inds[i] = left_inds[i] + window_size` (half-open boundaries). -/
theorem window_index_invariant (train : List (List ℚ) → List ℚ → List ℚ → ℚ)
    (s : DetectorState) (X : List (List ℚ))
    (hca : check_array X = .ok X) (hW : s.window_size ≤ X.length) :
    (∃ L R, (fit train s X).1.left_inds_ = some L ∧
      (fit train s X).1.right_inds_ = some R ∧ L.length = R.length ∧
      ∀ i, i < L.length →
        L.getD i 0 = i * s.step_size ∧
        R.getD i 0 = i * s.step_size + s.window_size ∧
        R.getD i 0 = L.getD i 0 + s.window_size) ∧
    (∀ sc liT riT, decision_function s X = .ok (sc, liT, riT) →
      liT.length = riT.length ∧
      ∀ i, i < liT.length →
        liT.getD i 0 = i * s.step_size ∧
        riT.getD i 0 = i * s.step_size + s.window_size ∧
        riT.getD i 0 = liT.getD i 0 + s.window_size) := by
  constructor
  · obtain ⟨hL, hR, hV⟩ := fit_inds train s X hca hW
    refine ⟨_, _, hL, hR, ?_, ?_⟩
    · rw [length_dropLast_range_map, length_dropLast_range_map]
    · intro i hi
      rw [length_dropLast_range_map] at hi
      rw [getD_dropLast_range_map _ _ _ hi, getD_dropLast_range_map _ _ _ hi]
      exact ⟨rfl, rfl, rfl⟩
  · intro sc liT riT hok
    obtain ⟨g, hg, hgf, hWX, y, hbt, houteq⟩ :=
      decision_function_ok_inv s X (sc, liT, riT) hok
    injection houteq with h1 h2
    injection h2 with h2 h3
    subst h2
    subst h3
    constructor
    · rw [length_dropLast_range_map, length_dropLast_range_map]
    · intro i hi
      rw [length_dropLast_range_map] at hi
      rw [getD_dropLast_range_map _ _ _ hi, getD_dropLast_range_map _ _ _ hi]
      exact ⟨rfl, rfl, rfl⟩

/-- Witness for C9: the index invariant evaluated on the spec's 14-sample
example with `window_size = 3`, `step_size = 1`. -/
theorem window_index_invariant_witness :
    (fit trainZero sWin3 Xtrain14).1.left_inds_ = some [0,1,2,3,4,5,6,7,8,9,10] ∧
    (fit trainZero sWin3 Xtrain14).1.right_inds_ =
      some [3,4,5,6,7,8,9,10,11,12,13] ∧
    ([3,4,5,6,7,8,9,10,11,12,13] : List ℕ).getD 4 0 =
      ([0,1,2,3,4,5,6,7,8,9,10] : List ℕ).getD 4 0 + sWin3.window_size := by
  obtain ⟨⟨L, R, hL, hR, hlen, hvals⟩, hdf⟩ :=
    window_index_invariant trainZero sWin3 Xtrain14 (by decide) (by decide)
  have hLval : L = [0,1,2,3,4,5,6,7,8,9,10] := by
    have := hL.symm.trans (show (fit trainZero sWin3 Xtrain14).1.left_inds_ =
      some [0,1,2,3,4,5,6,7,8,9,10] by decide)
    injection this
  have hRval : R = [3,4,5,6,7,8,9,10,11,12,13] := by
    have := hR.symm.trans (show (fit trainZero sWin3 Xtrain14).1.right_inds_ =
      some [3,4,5,6,7,8,9,10,11,12,13] by decide)
    injection this
  refine ⟨hLval ▸ hL, hRval ▸ hR, ?_⟩
  have h4 := (hvals 4 (by rw [hLval]; decide)).2.2
  rw [hLval, hRval] at h4
  exact h4

/-- C2: with stride `S ≥ 1` and `N ≥ W`, windowing yields
`floor((N-W)/S) + 1` raw windows, and both `fit` and `decision_function`
retain exactly one fewer after the unconditional trim; on the spec's
14-sample example with `window_size = 3`, `step_size = 1`: 12 raw windows,
11 retained, `left_inds_ = [0..10]`, `right_inds_ = [3..13]`. -/
theorem window_count_and_trim (X : List (List ℚ)) (W S : ℕ)
    (_hS : 1 ≤ S) (hW : W ≤ X.length) :
    (∃ sub li ri, get_sub_matrices X W S = .ok (sub, li, ri) ∧
      sub.length = (X.length - W) / S + 1 ∧
      li.length = (X.length - W) / S + 1 ∧
      ri.length = (X.length - W) / S + 1 ∧
      sub.dropLast.length = (X.length - W) / S) ∧
    (∀ train (s : DetectorState), s.window_size = W → s.step_size = S →
      check_array X = .ok X →
      ∃ L, (fit train s X).1.left_inds_ = some L ∧
        L.length = (X.length - W) / S ∧
        (fit train s X).1.valid_len_ = some ((X.length - W) / S)) ∧
    (∀ (s : DetectorState) sc liT riT, s.window_size = W → s.step_size = S →
      decision_function s X = .ok (sc, liT, riT) →
      sc.length = (X.length - W) / S ∧ liT.length = (X.length - W) / S ∧
      riT.length = (X.length - W) / S) ∧
    (∀ train, (fit train sWin3 Xtrain14).1.left_inds_ =
        some [0,1,2,3,4,5,6,7,8,9,10] ∧
      (fit train sWin3 Xtrain14).1.right_inds_ =
        some [3,4,5,6,7,8,9,10,11,12,13] ∧
      (fit train sWin3 Xtrain14).1.valid_len_ = some 11 ∧
      (get_sub_matrices Xtrain14 3 1).map (fun t => t.2.1.length) = .ok 12) := by
  refine ⟨?_, ?_, ?_, ?_⟩
  · refine ⟨_, _, _, get_sub_matrices_ok X W S hW, ?_, ?_, ?_, ?_⟩ <;> simp
  · intro train s hw hs hca
    subst hw
    subst hs
    obtain ⟨hL, hR, hV⟩ := fit_inds train s X hca hW
    refine ⟨_, hL, ?_, ?_⟩
    · rw [length_dropLast_range_map]
      simp
    · rw [hV]
      congr 1
      simp
  · intro s sc liT riT hw hs hok
    subst hw
    subst hs
    obtain ⟨g, hg, hgf, hWX, y, hbt, houteq⟩ :=
      decision_function_ok_inv s X (sc, liT, riT) hok
    injection houteq with h1 h2
    injection h2 with h2 h3
    subst h1
    subst h2
    subst h3
    have hylen : y.length =
        (((List.range ((X.length - s.window_size) / s.step_size + 1)).map
          (fun i => ((X.drop (i * s.step_size)).take s.window_size).flatten)).dropLast).length := by
      have := buildTargetsGo_ok_length X s.step_size s.window_size _ y hbt
      simpa using this
    refine ⟨?_, ?_, ?_⟩
    · rw [List.length_zipWith, List.length_map, hylen]
      simp
    · rw [length_dropLast_range_map]
      simp
    · rw [length_dropLast_range_map]
      simp
  · intro train
    refine ⟨?_, ?_, ?_, by decide⟩
    · have h := (fit_inds train sWin3 Xtrain14 (by decide) (by decide)).1
      rw [h]
      decide
    · have h := (fit_inds train sWin3 Xtrain14 (by decide) (by decide)).2.1
      rw [h]
      decide
    · have h := (fit_inds train sWin3 Xtrain14 (by decide) (by decide)).2.2
      rw [h]
      decide

/-- Witness for C2: the window-count and trim facts evaluated on the
14-sample example. -/
theorem window_count_and_trim_witness :
    ((get_sub_matrices Xtrain14 3 1).map (fun t => t.2.1.length) = .ok 12) ∧
    (fit trainZero sWin3 Xtrain14).1.left_inds_ =
      some [0,1,2,3,4,5,6,7,8,9,10] ∧
    (fit trainZero sWin3 Xtrain14).1.right_inds_ =
      some [3,4,5,6,7,8,9,10,11,12,13] ∧
    (fit trainZero sWin3 Xtrain14).1.valid_len_ = some 11 := by
  have h := (window_count_and_trim Xtrain14 3 1 (by decide) (by decide)).2.2.2 trainZero
  exact ⟨h.2.2.2, h.1, h.2.1, h.2.2.1⟩

/-- C3: for every retained window `i` the target index `i*S + W` is strictly
within the input bounds, so target construction never raises IndexError —
neither standalone, nor inside `fit`, nor inside `decision_function` — and
the target of window `i` is the sample immediately following the window,
`X[i*S + W]`. -/
theorem target_index_safety (X : List (List ℚ)) (W S : ℕ)
    (hS : 1 ≤ S) (hW : W ≤ X.length) :
    (∀ i, i < (X.length - W) / S → i * S + W < X.length) ∧
    buildTargets X S W ((X.length - W) / S) ≠ .error .indexError ∧
    (∀ y, buildTargets X S W ((X.length - W) / S) = .ok y →
      ∀ i, i < (X.length - W) / S →
        ∃ row, X.get? (i * S + W) = some row ∧ y.getD i 0 = row.headD 0) ∧
    (∀ train (s : DetectorState), s.window_size = W → s.step_size = S →
      (fit train s X).2 ≠ some .indexError) ∧
    (∀ (s : DetectorState), s.window_size = W → s.step_size = S →
      decision_function s X ≠ .error .indexError) := by
  have hbound : ∀ i, i < (X.length - W) / S → i * S + W < X.length := by
    intro i hi
    have h2 : i + 1 ≤ (X.length - W) / S := hi
    have h3 : (i + 1) * S ≤ ((X.length - W) / S) * S :=
      Nat.mul_le_mul_right S h2
    have h4 : ((X.length - W) / S) * S ≤ X.length - W := Nat.div_mul_le_self _ _
    have h5 : (i + 1) * S = i * S + S := Nat.succ_mul i S
    have h6 : i * S + S ≤ X.length - W := by
      rw [← h5]
      exact le_trans h3 h4
    omega
  have hnoix : buildTargets X S W ((X.length - W) / S) ≠ .error .indexError := by
    unfold buildTargets
    apply buildTargetsGo_ne_indexError
    intro i hi
    exact hbound i (List.mem_range.1 hi)
  refine ⟨hbound, hnoix, ?_, ?_, ?_⟩
  · intro y hok i hi
    have hget := buildTargetsGo_ok_get X S W (List.range ((X.length - W) / S)) y hok i
      (by simpa using hi)
    rw [getD_range _ _ hi] at hget
    unfold targetAt at hget
    cases hrow : X.get? (i * S + W) with
    | none =>
      rw [List.get?_eq_none] at hrow
      exact absurd (hbound i hi) (not_lt.2 hrow)
    | some row =>
      rw [hrow] at hget
      dsimp only at hget
      by_cases hlen : row.length = 1
      · rw [if_pos hlen] at hget
        injection hget with hval
        exact ⟨row, rfl, hval.symm⟩
      · rw [if_neg hlen] at hget
        cases hget
  · intro train s hw hs h
    subst hw
    subst hs
    unfold fit at h
    cases hca : check_array X with
    | error e =>
      rw [hca] at h
      dsimp only at h
      injection h with he
      rw [check_array_error_inv X e hca] at he
      cases he
    | ok X1 =>
      have hX1 := check_array_ok_eq X X1 hca
      rw [hX1] at hca
      rw [hca] at h
      dsimp only at h
      rw [get_sub_matrices_ok X s.window_size s.step_size hW] at h
      dsimp only at h
      cases hbt : buildTargets X s.step_size s.window_size
          ((((List.range ((X.length - s.window_size) / s.step_size + 1)).map
            (fun i => ((X.drop (i * s.step_size)).take s.window_size).flatten)).dropLast).length) with
      | error e =>
        rw [hbt] at h
        dsimp only at h
        injection h with he
        rw [he] at hbt
        rw [show (((List.range ((X.length - s.window_size) / s.step_size + 1)).map
          (fun i => ((X.drop (i * s.step_size)).take s.window_size).flatten)).dropLast).length =
          (X.length - s.window_size) / s.step_size from by simp] at hbt
        exact hnoix hbt
      | ok y =>
        rw [hbt] at h
        dsimp only at h
        by_cases hz : (((List.range ((X.length - s.window_size) / s.step_size + 1)).map
            (fun i => ((X.drop (i * s.step_size)).take s.window_size).flatten)).dropLast).length = 0
        · rw [if_pos hz] at h
          dsimp only at h
          injection h with he
          cases he
        · rw [if_neg hz] at h
          dsimp only at h
          cases h
  · intro s hw hs h
    subst hw
    subst hs
    unfold decision_function decisionFunctionM at h
    dsimp only at h
    cases hg : s.gbr_ with
    | none =>
      rw [hg] at h
      injection h with he
      cases he
    | some g =>
      rw [hg] at h
      dsimp only at h
      rw [get_sub_matrices_ok X s.window_size s.step_size hW] at h
      dsimp only at h
      cases hbt : buildTargets X s.step_size s.window_size
          ((((List.range ((X.length - s.window_size) / s.step_size + 1)).map
            (fun i => ((X.drop (i * s.step_size)).take s.window_size).flatten)).dropLast).length) with
      | error e =>
        rw [hbt] at h
        dsimp only at h
        injection h with he
        rw [he] at hbt
        rw [show (((List.range ((X.length - s.window_size) / s.step_size + 1)).map
          (fun i => ((X.drop (i * s.step_size)).take s.window_size).flatten)).dropLast).length =
          (X.length - s.window_size) / s.step_size from by simp] at hbt
        exact hnoix hbt
      | ok y =>
        rw [hbt] at h
        dsimp only at h
        cases hgp : gbPredict g
            (((List.range ((X.length - s.window_size) / s.step_size + 1)).map
              (fun i => ((X.drop (i * s.step_size)).take s.window_size).flatten)).dropLast) with
        | error e =>
          rw [hgp] at h
          dsimp only at h
          injection h with he
          rw [he] at hgp
          have := gbPredict_error_inv _ _ _ hgp
          cases this
        | ok preds =>
          rw [hgp] at h
          dsimp only at h
          cases h

/-- Witness for C3: the in-bounds facts and target values on the 14-sample
example with `window_size = 3`, `step_size = 1`. -/
theorem target_index_safety_witness :
    (0 * 1 + 3 < Xtrain14.length ∧ 10 * 1 + 3 < Xtrain14.length) ∧
    buildTargets Xtrain14 1 3 ((Xtrain14.length - 3) / 1) ≠ .error .indexError ∧
    (fit trainZero sWin3 Xtrain14).2 ≠ some .indexError := by
  obtain ⟨hb, hnix, hval, hfit, hdf⟩ :=
    target_index_safety Xtrain14 3 1 (by decide) (by decide)
  exact ⟨⟨hb 0 (by decide), hb 10 (by decide)⟩, hnix,
         hfit trainZero sWin3 rfl rfl⟩

/-- C10 (implicit): on any well-formed input with more than one feature that
yields at least one retained window, `fit` raises: the first iteration of
the target loop assigns a whole multi-element row to a scalar slot, a
ValueError-class numpy broadcast failure, so multivariate input never
produces a fitted detector. -/
theorem multivariate_fit_raises (train : List (List ℚ) → List ℚ → List ℚ → ℚ)
    (s : DetectorState) (X : List (List ℚ)) (F : ℕ)
    (hca : check_array X = .ok X) (hF : ∀ r ∈ X, r.length = F) (h2 : 2 ≤ F)
    (hW : s.window_size ≤ X.length)
    (hvl : 1 ≤ (X.length - s.window_size) / s.step_size) :
    (fit train s X).2 = some .valueError := by
  have hS : 1 ≤ s.step_size := by
    rcases Nat.eq_zero_or_pos s.step_size with h0 | h1
    · rw [h0] at hvl
      simp at hvl
    · exact h1
  have hWlt : s.window_size < X.length := by
    have hmul : 1 * s.step_size ≤ X.length - s.window_size :=
      (Nat.le_div_iff_mul_le (by omega)).1 hvl
    omega
  have hrow : X.get? s.window_size = some (X.get ⟨s.window_size, hWlt⟩) :=
    List.get?_eq_get hWlt
  have hrowlen : (X.get ⟨s.window_size, hWlt⟩).length = F :=
    hF _ (X.get_mem _ _)
  have h0 : targetAt X s.step_size s.window_size 0 = .error .valueError := by
    unfold targetAt
    rw [show 0 * s.step_size + s.window_size = s.window_size from by omega]
    rw [hrow]
    dsimp only
    rw [if_neg (by omega)]
  have hbt : buildTargets X s.step_size s.window_size
      ((((List.range ((X.length - s.window_size) / s.step_size + 1)).map
        (fun i => ((X.drop (i * s.step_size)).take s.window_size).flatten)).dropLast).length)
      = .error .valueError := by
    rw [show (((List.range ((X.length - s.window_size) / s.step_size + 1)).map
      (fun i => ((X.drop (i * s.step_size)).take s.window_size).flatten)).dropLast).length =
      ((X.length - s.window_size) / s.step_size - 1) + 1 from by simp; omega]
    unfold buildTargets
    rw [List.range_succ_eq_map]
    unfold buildTargetsGo
    rw [h0]
  unfold fit
  rw [hca]
  dsimp only
  rw [get_sub_matrices_ok X s.window_size s.step_size hW]
  dsimp only
  rw [hbt]

/-- Witness for C10: the two-feature input `Xmulti4` makes `fit` raise. -/
theorem multivariate_fit_raises_witness :
    (fit trainZero sMulti Xmulti4).2 = some .valueError :=
  multivariate_fit_raises trainZero sMulti Xmulti4 2 (by decide)
    (by decide) (by decide) (by decide) (by decide)

/-- C4 (amended): after a successful `fit` with contamination `c`, at most
`floor(n * c)` of the `n` training scores strictly exceed `threshold_` —
with equality whenever the scores are pairwise distinct, but possibly fewer
under ties at the quantile boundary — and `labels_` binarizes
`decision_scores_` by the strict comparison `score > threshold_`, so ties at
the threshold are labeled inlier. -/
theorem threshold_count (train : List (List ℚ) → List ℚ → List ℚ → ℚ)
    (W S : ℕ) (c : ℚ) (X : List (List ℚ)) (s₀ s' : DetectorState)
    (hinit : init W S c = .ok s₀) (hfit : fit train s₀ X = (s', none)) :
    ∃ ds t, s'.decision_scores_ = some ds ∧ s'.threshold_ = some t ∧
      s'.labels_ = some (ds.map (fun x => if t < x then 1 else 0)) ∧
      List.countP (fun x => decide (t < x)) ds ≤ (⌊(ds.length : ℚ) * c⌋).toNat ∧
      (ds.Nodup →
        List.countP (fun x => decide (t < x)) ds = (⌊(ds.length : ℚ) * c⌋).toNat) := by
  obtain ⟨hs0, hc0, hc1⟩ := init_ok_inv W S c s₀ hinit
  obtain ⟨ds, gf, hds, hne, hpos, hth, hlb, hgbr, hw, hs, hcon⟩ :=
    fit_ok_state train s₀ X s' hfit
  have hc : s₀.contamination = c := by rw [hs0]
  rw [hc] at hth hlb
  have hk : kOf ds.length c ≤ ds.length - 1 := by
    have hlt := kOf_lt ds.length c hc1 (by
      have := List.length_pos.2 hne
      omega)
    omega
  refine ⟨ds, threshold_of ds c, hds, hth, hlb, ?_, ?_⟩
  · rw [← kOf_eq]
    exact countP_gt_threshold_le ds c hne
  · intro hnd
    rw [← kOf_eq]
    exact countP_gt_threshold_eq_of_nodup ds c hne hk hnd

/-- Witness for C4: fitting the 14-sample example yields the 11 pairwise
distinct training scores, threshold 100, and exactly
`floor(11 * 0.1) = 1` score strictly above the threshold. -/
theorem threshold_count_witness :
    (fit trainZero sWin3 Xtrain14).1.decision_scores_ =
      some [16,18,13,22,36,59,128,62,67,78,100] ∧
    (fit trainZero sWin3 Xtrain14).1.threshold_ = some 100 ∧
    List.countP (fun x => decide ((100 : ℚ) < x))
        [16,18,13,22,36,59,128,62,67,78,100] ≤
      (⌊(([16,18,13,22,36,59,128,62,67,78,100] : List ℚ).length : ℚ) *
        mkRat 1 10⌋).toNat ∧
    List.countP (fun x => decide ((100 : ℚ) < x))
        [16,18,13,22,36,59,128,62,67,78,100] =
      (⌊(([16,18,13,22,36,59,128,62,67,78,100] : List ℚ).length : ℚ) *
        mkRat 1 10⌋).toNat := by
  obtain ⟨ds, t, h1, h2, h3, h4, h5⟩ := threshold_count trainZero 3 1 (mkRat 1 10)
    Xtrain14 sWin3 (fit trainZero sWin3 Xtrain14).1 rfl (by
      have h2 : (fit trainZero sWin3 Xtrain14).2 = none := by decide
      rw [← h2])
  have hds : ds = [16,18,13,22,36,59,128,62,67,78,100] := by
    have h1c : (fit trainZero sWin3 Xtrain14).1.decision_scores_ =
        some [16,18,13,22,36,59,128,62,67,78,100] := by decide
    have := h1.symm.trans h1c
    injection this
  subst hds
  have ht : t = 100 := by
    have h2c : (fit trainZero sWin3 Xtrain14).1.threshold_ = some 100 := by decide
    have := h2.symm.trans h2c
    injection this
  subst ht
  exact ⟨h1, h2, h4, h5 (by decide)⟩

/-- C4 counterexample: with eight identical training scores and
contamination `0.2`, `floor(8 * 0.2) = 1` but no score strictly exceeds
`threshold_`, so the claimed exact count fails under ties. -/
theorem threshold_count_counterexample :
    init 1 1 (mkRat 1 5) = .ok sOnes ∧
    (fit trainZero sOnes Xones9).2 = none ∧
    (fit trainZero sOnes Xones9).1.decision_scores_ = some [1,1,1,1,1,1,1,1] ∧
    (fit trainZero sOnes Xones9).1.threshold_ = some 1 ∧
    (⌊(([1,1,1,1,1,1,1,1] : List ℚ).length : ℚ) * mkRat 1 5⌋).toNat = 1 ∧
    List.countP (fun x => decide ((1 : ℚ) < x)) [1,1,1,1,1,1,1,1] = 0 := by
  refine ⟨rfl, by decide, by decide, by decide, ?_, by decide⟩
  rw [← kOf_eq]
  decide

/-- C1 (amended): with the default stride `step_size = 1`, whenever `predict`
succeeds on a fitted detector its label, left-index and right-index arrays
all have length equal to the number of rows of the input: they are the
`decision_function` results left-padded with `window_size` zero entries, the
padded scores are binarized against the nonnegative `threshold_`, and the
first `window_size` labels are 0.  (For `step_size > 1` the padded length
`window_size + floor((N - window_size)/step_size)` differs from `N` in
general, so the claimed length equality does not hold unconditionally.) -/
theorem predict_padding (train : List (List ℚ) → List ℚ → List ℚ → ℚ)
    (W : ℕ) (c : ℚ) (Xtr X : List (List ℚ)) (s₀ s' : DetectorState)
    (lbls li ri : List ℕ)
    (hinit : init W 1 c = .ok s₀) (hfit : fit train s₀ Xtr = (s', none))
    (hpred : predict s' X = .ok (lbls, li, ri)) :
    lbls.length = X.length ∧ li.length = X.length ∧ ri.length = X.length ∧
    lbls.take W = List.replicate W 0 ∧
    ∃ t sc liT riT, s'.threshold_ = some t ∧ 0 ≤ t ∧
      decision_function s' X = .ok (sc, liT, riT) ∧
      lbls = (List.replicate W (0 : ℚ) ++ sc).map
        (fun x => if t < x then 1 else 0) ∧
      li = List.replicate W 0 ++ liT ∧ ri = List.replicate W 0 ++ riT := by
  obtain ⟨hs0, hc0, hc1⟩ := init_ok_inv W 1 c s₀ hinit
  obtain ⟨ds, gf, hds, hne, hpos, hth, hlb, hgbr, hw, hsz, hcon⟩ :=
    fit_ok_state train s₀ Xtr s' hfit
  have hw' : s'.window_size = W := by rw [hw, hs0]
  have hsz' : s'.step_size = 1 := by rw [hsz, hs0]
  have ht0 : 0 ≤ threshold_of ds s₀.contamination :=
    threshold_of_nonneg ds _ hne hpos
  obtain ⟨t, sc, liT, riT, hthr2, hdf, hlbls, hli, hri⟩ :=
    predict_ok_inv s' X lbls li ri hpred
  have htv : t = threshold_of ds s₀.contamination := by
    have := hth.symm.trans hthr2
    injection this with h
    exact h.symm
  have ht0' : (0 : ℚ) ≤ t := htv ▸ ht0
  obtain ⟨g, hg, hgf2, hWX, y, hbt, houteq⟩ :=
    decision_function_ok_inv s' X (sc, liT, riT) hdf
  injection houteq with ha hrest
  injection hrest with hb hc
  rw [hw', hsz'] at ha hb hc hbt
  rw [hw'] at hlbls hli hri
  have hWX' : W ≤ X.length := hw' ▸ hWX
  have hylen : y.length =
      (((List.range ((X.length - W) / 1 + 1)).map
        (fun i => ((X.drop (i * 1)).take W).flatten)).dropLast).length := by
    have := buildTargetsGo_ok_length X 1 W _ y hbt
    simpa using this
  have hsublen : (((List.range ((X.length - W) / 1 + 1)).map
      (fun i => ((X.drop (i * 1)).take W).flatten)).dropLast).length =
      X.length - W := by
    simp [Nat.div_one]
  have hsclen : sc.length = X.length - W := by
    rw [ha, List.length_zipWith, List.length_map, hylen, hsublen]
    exact Nat.min_self _
  have hliTlen : liT.length = X.length - W := by
    rw [hb, length_dropLast_range_map]
    simp [Nat.div_one]
  have hriTlen : riT.length = X.length - W := by
    rw [hc, length_dropLast_range_map]
    simp [Nat.div_one]
  have hlblslen : lbls.length = X.length := by
    rw [hlbls, List.length_map, List.length_append, List.length_replicate, hsclen]
    omega
  have hlilen : li.length = X.length := by
    rw [hli, List.length_append, List.length_replicate, hliTlen]
    omega
  have hrilen : ri.length = X.length := by
    rw [hri, List.length_append, List.length_replicate, hriTlen]
    omega
  have htake : lbls.take W = List.replicate W 0 := by
    rw [hlbls, List.map_append]
    have hrep : (List.replicate W (0 : ℚ)).map (fun x => if t < x then 1 else 0) =
        List.replicate W (0 : ℕ) := by
      rw [List.map_replicate, if_neg (not_lt.2 ht0')]
    rw [hrep]
    rw [List.take_append_of_le_length (by simp), List.take_replicate]
    congr 1
    omega
  exact ⟨hlblslen, hlilen, hrilen, htake,
         t, sc, liT, riT, hthr2, ht0', hdf, hlbls, hli, hri⟩

/-- Witness for C1: fitting the 14-sample example and predicting on an
11-sample series returns arrays of length 11 whose first three labels are 0. -/
theorem predict_padding_witness :
    predict (fit trainZero sWin3 Xtrain14).1 Xtest11 =
      .ok ([0,0,0,0,0,0,0,0,0,0,0], [0,0,0,0,1,2,3,4,5,6,7],
           [0,0,0,3,4,5,6,7,8,9,10]) ∧
    ([0,0,0,0,0,0,0,0,0,0,0] : List ℕ).length = Xtest11.length ∧
    ([0,0,0,0,1,2,3,4,5,6,7] : List ℕ).length = Xtest11.length ∧
    ([0,0,0,3,4,5,6,7,8,9,10] : List ℕ).length = Xtest11.length ∧
    ([0,0,0,0,0,0,0,0,0,0,0] : List ℕ).take 3 = List.replicate 3 0 := by
  have hpred : predict (fit trainZero sWin3 Xtrain14).1 Xtest11 =
      .ok ([0,0,0,0,0,0,0,0,0,0,0], [0,0,0,0,1,2,3,4,5,6,7],
           [0,0,0,3,4,5,6,7,8,9,10]) := by decide
  obtain ⟨l1, l2, l3, l4, _⟩ := predict_padding trainZero 3 (mkRat 1 10)
    Xtrain14 Xtest11 sWin3 (fit trainZero sWin3 Xtrain14).1 _ _ _ rfl
    (by
      have h2 : (fit trainZero sWin3 Xtrain14).2 = none := by decide
      rw [← h2])
    hpred
  exact ⟨hpred, l1, l2, l3, l4⟩

/-- C1 counterexample: with `step_size = 2` on six samples, `predict`
returns arrays of length `1 + floor((6-1)/2) = 3`, not 6, so the claimed
unconditional length equality fails for strides larger than 1. -/
theorem predict_padding_counterexample :
    init 1 2 (mkRat 1 5) = .ok sStep2 ∧
    (fit trainZero sStep2 Xsix).2 = none ∧
    (predict (fit trainZero sStep2 Xsix).1 Xsix).map (fun out => out.1.length) =
      .ok 3 ∧
    Xsix.length = 6 :=
  ⟨rfl, by decide, rfl, rfl⟩

end GBRegODSpec
